import Mathlib

/-!
Verification of the ML service for IoT data classification (`src/main.py`).

The service is a FastAPI microservice with a pure rule-based classifier
`classify_sensor_data` and a `/predict` handler that validates input via
pydantic models, calls the classifier, and wraps the result in a
`PredictionResponse`.

Embedding choices:
* Python floats are modelled as rationals (`ℚ`); Python ints as `ℤ`.
* Pydantic field constraints (`ge`/`le`) become validity predicates on the
  input model, and a fallible constructor for the response model.
* Wall-clock timing is not part of the state we model: the elapsed
  milliseconds measured around the classifier call enter `predict` as an
  explicit parameter, and the handler applies the 3-decimal rounding of
  `round(processing_time_ms, 3)` to it.
* The `try/except` of the handler is modelled by `Except`: the handler
  returns `Except.error` exactly when response construction fails.
-/

/-- Classification label: the `Literal ["HOT", "WARM", "COLD"]` type of
`PredictionResponse.label` in `src/main.py`. -/
inductive Label where
  | HOT : Label
  | WARM : Label
  | COLD : Label
deriving DecidableEq, Repr

/-- Input schema `SensorData` of `src/main.py` (lines 29-42): a temperature
(float), a humidity percentage (int) and a CO2 level (int). -/
structure SensorData where
  temperature : ℚ
  humidity : ℤ
  co2_level : ℤ
deriving DecidableEq, Repr

/-- Pydantic validation of `SensorData`: `humidity` carries `ge=0, le=100`
and `co2_level` carries `ge=0`; `temperature` is unconstrained. -/
abbrev SensorData.IsValid (sd : SensorData) : Prop :=
  0 ≤ sd.humidity ∧ sd.humidity ≤ 100 ∧ 0 ≤ sd.co2_level

/-- Output schema `PredictionResponse` of `src/main.py` (lines 46-63). -/
structure PredictionResponse where
  label : Label
  confidence : ℚ
  temperature : ℚ
  co2_level : ℤ
  processing_time_ms : ℚ
deriving DecidableEq, Repr

/-- The `HTTPException` raised in the handler's except branch: a status code
and a detail message. -/
structure HTTPException where
  status_code : ℤ
  detail : String
deriving DecidableEq, Repr

/-- The function `classify_sensor_data` of `src/main.py` (lines 66-92):

* `HOT` when `temperature > 50 or co2_level > 1000`;
* otherwise `WARM` when `temperature > 35`;
* otherwise `COLD`.

Every branch returns confidence `1.0`. -/
def classify_sensor_data (temperature : ℚ) (co2_level : ℤ) :
    Label × ℚ :=
  if temperature > 50 ∨ co2_level > 1000 then
    (Label.HOT, 1)
  else if temperature > 35 then
    (Label.WARM, 1)
  else
    (Label.COLD, 1)

/-- Rounding to three decimal places, as `round(processing_time_ms, 3)` on
line 156 of `src/main.py`. -/
def round3 (q : ℚ) : ℚ :=
  (round (q * 1000) : ℤ) / 1000

/-- Constructing a `PredictionResponse` validates the pydantic constraint
`confidence: float = Field(..., ge=0.0, le=1.0)`; construction fails (raises
a validation error, caught by the handler's except branch) when the
constraint is violated.  `label` is constrained by its type. -/
def mkPredictionResponse (label : Label) (confidence : ℚ)
    (temperature : ℚ) (co2_level : ℤ) (processing_time_ms : ℚ) :
    Option PredictionResponse :=
  if 0 ≤ confidence ∧ confidence ≤ 1 then
    some ⟨label, confidence, temperature, co2_level, processing_time_ms⟩
  else
    none

/-- The `/predict` handler of `src/main.py` (lines 120-164), applied to an
already-validated `SensorData` and the elapsed milliseconds measured by the
`time.perf_counter()` pair around the call.  The try body classifies, then
builds the response echoing the input's `temperature` and `co2_level`; the
except branch converts any failure into an `HTTPException` with status 500. -/
def predict (sensor_data : SensorData) (elapsed_ms : ℚ) :
    Except HTTPException PredictionResponse :=
  let (label, confidence) :=
    classify_sensor_data sensor_data.temperature sensor_data.co2_level
  match mkPredictionResponse label confidence sensor_data.temperature
      sensor_data.co2_level (round3 elapsed_ms) with
  | some r => Except.ok r
  | none => Except.error ⟨500, "Classification error"⟩

/-! ### Helper lemmas -/

/-- The classifier's result, by cases on the guards. -/
lemma classify_sensor_data_cases (t : ℚ) (c : ℤ) :
    classify_sensor_data t c = (Label.HOT, 1) ∨
    classify_sensor_data t c = (Label.WARM, 1) ∨
    classify_sensor_data t c = (Label.COLD, 1) := by
  unfold classify_sensor_data
  split_ifs <;> simp

/-- The confidence component is `1` in every branch. -/
lemma classify_sensor_data_snd (t : ℚ) (c : ℤ) :
    (classify_sensor_data t c).2 = 1 := by
  rcases classify_sensor_data_cases t c with h | h | h <;> rw [h]

/-- The handler always succeeds, returning the classifier's label with
confidence `1`, the echoed inputs, and the rounded elapsed time. -/
lemma predict_eq (sd : SensorData) (e : ℚ) :
    predict sd e = Except.ok
      ⟨(classify_sensor_data sd.temperature sd.co2_level).1, 1,
        sd.temperature, sd.co2_level, round3 e⟩ := by
  unfold predict
  rw [show classify_sensor_data sd.temperature sd.co2_level =
      ((classify_sensor_data sd.temperature sd.co2_level).1, 1) by
    rw [← classify_sensor_data_snd sd.temperature sd.co2_level]]
  simp [mkPredictionResponse]

/-! ### Claims -/

/-- C1: for every input pair, if `temperature > 50` or `co2_level > 1000`,
then `classify_sensor_data` returns label `HOT` (the HOT rule fires
regardless of the value of the other argument). -/
theorem classify_hot_rule (t : ℚ) (c : ℤ) (h : t > 50 ∨ c > 1000) :
    (classify_sensor_data t c).1 = Label.HOT := by
  unfold classify_sensor_data
  rw [if_pos h]

theorem classify_hot_rule_witness :
    (((51 : ℚ) > 50 ∨ (0 : ℤ) > 1000) ∧
      (classify_sensor_data 51 0).1 = Label.HOT) ∧
    (((20 : ℚ) > 50 ∨ (1001 : ℤ) > 1000) ∧
      (classify_sensor_data 20 1001).1 = Label.HOT) :=
  ⟨⟨Or.inl (by norm_num), classify_hot_rule 51 0 (Or.inl (by norm_num))⟩,
   ⟨Or.inr (by norm_num), classify_hot_rule 20 1001 (Or.inr (by norm_num))⟩⟩

/-- C2: for every input pair with `35 < temperature ≤ 50` and
`co2_level ≤ 1000`, `classify_sensor_data` returns label `WARM`; in
particular `temperature = 50` with `co2_level ≤ 1000` yields `WARM`, not
`HOT` (the threshold comparisons are strict). -/
theorem classify_warm_rule (t : ℚ) (c : ℤ)
    (ht1 : 35 < t) (ht2 : t ≤ 50) (hc : c ≤ 1000) :
    (classify_sensor_data t c).1 = Label.WARM := by
  unfold classify_sensor_data
  rw [if_neg, if_pos ht1]
  push_neg
  exact ⟨ht2, hc⟩

theorem classify_warm_rule_witness :
    ((35 : ℚ) < 50 ∧ (50 : ℚ) ≤ 50 ∧ (1000 : ℤ) ≤ 1000) ∧
    (classify_sensor_data 50 1000).1 = Label.WARM :=
  ⟨⟨by norm_num, le_refl _, le_refl _⟩,
   classify_warm_rule 50 1000 (by norm_num) (le_refl _) (le_refl _)⟩

/-- C3: for every input pair with `temperature ≤ 35` and
`co2_level ≤ 1000`, `classify_sensor_data` returns label `COLD`; in
particular `temperature = 35` yields `COLD`, not `WARM`, and
`co2_level = 1000` alone does not trigger `HOT`. -/
theorem classify_cold_rule (t : ℚ) (c : ℤ)
    (ht : t ≤ 35) (hc : c ≤ 1000) :
    (classify_sensor_data t c).1 = Label.COLD := by
  unfold classify_sensor_data
  rw [if_neg, if_neg (not_lt.mpr ht)]
  push_neg
  exact ⟨le_trans ht (by norm_num), hc⟩

theorem classify_cold_rule_witness :
    ((35 : ℚ) ≤ 35 ∧ (1000 : ℤ) ≤ 1000) ∧
    (classify_sensor_data 35 1000).1 = Label.COLD :=
  ⟨⟨le_refl _, le_refl _⟩,
   classify_cold_rule 35 1000 (le_refl _) (le_refl _)⟩

/-- C4: for every input pair, the confidence component of
`classify_sensor_data`'s result is exactly `1.0`. -/
theorem classify_confidence_one (t : ℚ) (c : ℤ) :
    (classify_sensor_data t c).2 = 1 :=
  classify_sensor_data_snd t c

/-- C5: for every input pair, the label returned by `classify_sensor_data`
is one of exactly the three values `HOT`, `WARM`, `COLD`. -/
theorem classify_label_enumerated (t : ℚ) (c : ℤ) :
    (classify_sensor_data t c).1 = Label.HOT ∨
    (classify_sensor_data t c).1 = Label.WARM ∨
    (classify_sensor_data t c).1 = Label.COLD := by
  rcases classify_sensor_data_cases t c with h | h | h <;> rw [h] <;> simp

/-- C6: `classify_sensor_data` is total over its declared domain: for every
temperature and every `co2_level` it returns one of the three
`(label, 1.0)` pairs — the final else branch is an unconditional default,
so no input combination is unhandled and no error is raised. -/
theorem classify_total (t : ℚ) (c : ℤ) :
    classify_sensor_data t c = (Label.HOT, 1) ∨
    classify_sensor_data t c = (Label.WARM, 1) ∨
    classify_sensor_data t c = (Label.COLD, 1) :=
  classify_sensor_data_cases t c

/-- C7: `classify_sensor_data` is deterministic: two calls with identical
`(temperature, co2_level)` arguments return identical
`(label, confidence)` pairs. -/
theorem classify_deterministic (t t' : ℚ) (c c' : ℤ)
    (ht : t = t') (hc : c = c') :
    classify_sensor_data t c = classify_sensor_data t' c' := by
  rw [ht, hc]

theorem classify_deterministic_witness :
    ((40 : ℚ) = 40 ∧ (800 : ℤ) = 800) ∧
    classify_sensor_data 40 800 = classify_sensor_data 40 800 :=
  ⟨⟨rfl, rfl⟩, classify_deterministic 40 40 800 800 rfl rfl⟩

/-- C8: for every valid `SensorData` input, the `predict` handler's
response carries the input's `temperature` and `co2_level` unchanged, and
its label and confidence equal exactly the pair returned by
`classify_sensor_data` on that input. -/
theorem predict_echoes_and_uses_classifier (sd : SensorData) (e : ℚ)
    (r : PredictionResponse) (hv : sd.IsValid)
    (h : predict sd e = Except.ok r) :
    r.temperature = sd.temperature ∧ r.co2_level = sd.co2_level ∧
    (r.label, r.confidence) =
      classify_sensor_data sd.temperature sd.co2_level := by
  rw [predict_eq sd e] at h
  injection h with h
  subst h
  refine ⟨rfl, rfl, ?_⟩
  rw [show classify_sensor_data sd.temperature sd.co2_level =
      ((classify_sensor_data sd.temperature sd.co2_level).1, 1) by
    rw [← classify_sensor_data_snd sd.temperature sd.co2_level]]

theorem predict_echoes_and_uses_classifier_witness :
    (SensorData.IsValid ⟨40, 50, 800⟩ ∧
      predict ⟨40, 50, 800⟩ 2 =
        Except.ok ⟨Label.WARM, 1, 40, 800, round3 2⟩) ∧
    ((⟨Label.WARM, 1, 40, 800, round3 2⟩ :
        PredictionResponse).temperature =
        (⟨40, 50, 800⟩ : SensorData).temperature ∧
      (⟨Label.WARM, 1, 40, 800, round3 2⟩ :
          PredictionResponse).co2_level =
        (⟨40, 50, 800⟩ : SensorData).co2_level ∧
      ((⟨Label.WARM, 1, 40, 800, round3 2⟩ : PredictionResponse).label,
        (⟨Label.WARM, 1, 40, 800, round3 2⟩ :
          PredictionResponse).confidence) =
        classify_sensor_data (⟨40, 50, 800⟩ : SensorData).temperature
          (⟨40, 50, 800⟩ : SensorData).co2_level) :=
  ⟨⟨by decide, by rw [predict_eq]; rfl⟩,
   predict_echoes_and_uses_classifier ⟨40, 50, 800⟩ 2 _
     (by decide) (by rw [predict_eq]; rfl)⟩

/-- C9: humidity never influences classification: for any two valid
`SensorData` inputs agreeing on `temperature` and `co2_level` and differing
only in humidity, `predict` produces the same label and confidence. -/
theorem predict_humidity_noninterference (sd1 sd2 : SensorData)
    (e1 e2 : ℚ) (hv1 : sd1.IsValid) (hv2 : sd2.IsValid)
    (ht : sd1.temperature = sd2.temperature)
    (hc : sd1.co2_level = sd2.co2_level)
    (r1 r2 : PredictionResponse)
    (h1 : predict sd1 e1 = Except.ok r1)
    (h2 : predict sd2 e2 = Except.ok r2) :
    r1.label = r2.label ∧ r1.confidence = r2.confidence := by
  rw [predict_eq sd1 e1] at h1
  rw [predict_eq sd2 e2] at h2
  injection h1 with h1
  injection h2 with h2
  subst h1
  subst h2
  exact ⟨by rw [ht, hc], rfl⟩

theorem predict_humidity_noninterference_witness :
    (SensorData.IsValid ⟨40, 10, 800⟩ ∧ SensorData.IsValid ⟨40, 90, 800⟩ ∧
      (⟨40, 10, 800⟩ : SensorData).temperature =
        (⟨40, 90, 800⟩ : SensorData).temperature ∧
      (⟨40, 10, 800⟩ : SensorData).co2_level =
        (⟨40, 90, 800⟩ : SensorData).co2_level ∧
      predict ⟨40, 10, 800⟩ 2 =
        Except.ok ⟨Label.WARM, 1, 40, 800, round3 2⟩ ∧
      predict ⟨40, 90, 800⟩ 3 =
        Except.ok ⟨Label.WARM, 1, 40, 800, round3 3⟩) ∧
    ((⟨Label.WARM, 1, 40, 800, round3 2⟩ : PredictionResponse).label =
        (⟨Label.WARM, 1, 40, 800, round3 3⟩ : PredictionResponse).label ∧
      (⟨Label.WARM, 1, 40, 800, round3 2⟩ :
          PredictionResponse).confidence =
        (⟨Label.WARM, 1, 40, 800, round3 3⟩ :
          PredictionResponse).confidence) :=
  ⟨⟨by decide, by decide, by decide, by decide,
    by rw [predict_eq]; rfl, by rw [predict_eq]; rfl⟩,
   predict_humidity_noninterference ⟨40, 10, 800⟩ ⟨40, 90, 800⟩ 2 3
     (by decide) (by decide) (by decide) (by decide) _ _
     (by rw [predict_eq]; rfl) (by rw [predict_eq]; rfl)⟩

/-- C10: for every valid `SensorData` input, the except branch of the
`predict` handler is unreachable: classification and response construction
cannot fail, so `predict` always returns `Except.ok` and never the
status-500 error. -/
theorem predict_except_unreachable (sd : SensorData) (e : ℚ)
    (hv : sd.IsValid) :
    (∃ r, predict sd e = Except.ok r) ∧
    ∀ err, predict sd e ≠ Except.error err := by
  refine ⟨⟨_, predict_eq sd e⟩, fun err h => ?_⟩
  rw [predict_eq sd e] at h
  exact Except.noConfusion h

theorem predict_except_unreachable_witness :
    SensorData.IsValid ⟨40, 50, 800⟩ ∧
    ((∃ r, predict ⟨40, 50, 800⟩ 2 = Except.ok r) ∧
      ∀ err, predict ⟨40, 50, 800⟩ 2 ≠ Except.error err) :=
  ⟨by decide, predict_except_unreachable ⟨40, 50, 800⟩ 2 (by decide)⟩
